import Mathlib

/-!
# Aquila DSP library: utility functions and the Blackman window

A shallow embedding of `aquila/functions.h` (`dB`, `clamp`, `random`,
`randomDouble`) and of the `BlackmanWindow` signal source, together with
theorems about them.

Conventions of the embedding:

* `std::max`, `std::min` are written out with the comparison the C++ standard
  library prescribes (`operator<` only).
* `int` is the 32-bit two's complement integer: a value is an `Int` in
  `[INT_MIN, INT_MAX]` and every arithmetic result is reduced by `wrapInt`.
  The C++ `%` truncates towards zero, which is `Int.tmod`.
* `std::size_t` is the 64-bit unsigned integer, a `Nat`; an integer argument is
  converted to it by `size_t_of_int`.
* `std::rand()` is an input of the embedding: the integer it returned is passed
  to `random` / `randomDouble` as an argument; `RAND_MAX` is passed likewise.
* `double` arithmetic is exact arithmetic in a field; the library functions
  `std::log10`, `std::abs` (complex) and `std::cos` are arguments of the
  definitions and are instantiated by the real functions in the theorems.
* The three overloads of `dB` are `dB` (one argument), `dB_complex` and `dB_ref`
  (value and reference value). The parameters `from`, `to` of `random` are
  written `from_`, `to_`.
-/

namespace Aquila

/-! ## Definitions -/

/-- The function `std::max(a, b)`: `(a < b) ? b : a`. -/
def stdMax {α : Type} [LinearOrder α] (a b : α) : α :=
  if a < b then b else a

/-- The function `std::min(a, b)`: `(b < a) ? b : a`. -/
def stdMin {α : Type} [LinearOrder α] (a b : α) : α :=
  if b < a then b else a

/-- Clamps (limits) the value inside a range:
`return std::max(min, std::min(value, max));`. -/
def clamp {α : Type} [LinearOrder α] (min value max : α) : α :=
  stdMax min (stdMin value max)

/-- Largest value of the 32-bit `int`. -/
def INT_MAX : Int := 2147483647

/-- Smallest value of the 32-bit `int`. -/
def INT_MIN : Int := -2147483648

/-- Reduction of a mathematical integer to the 32-bit two's complement `int`
that represents it (the result of an `int` operation that overflows). -/
def wrapInt (x : Int) : Int :=
  (x + 2147483648) % 4294967296 - 2147483648

/-- Returns a pseudorandom value from a range:
`return std::rand() % (to - from) + from;`.

`rand` is the value `std::rand()` returned. The result is `none` when the
divisor `to - from` is zero: the integer remainder is then undefined and the
function yields no value. The function has no other exit. -/
def random (rand from_ to_ : Int) : Option Int :=
  let range := wrapInt (to_ - from_)
  if range = 0 then none
  else some (wrapInt (Int.tmod rand range + from_))

/-- Returns a pseudorandom double number from 0 to 1:
`return std::rand() / static_cast<double>(RAND_MAX);`.

`rand` is the value `std::rand()` returned and `RAND_MAX` the constant of
`<cstdlib>`. -/
def randomDouble {α : Type} [Field α] (rand RAND_MAX : Int) : α :=
  (rand : α) / (RAND_MAX : α)

/-- Converts the value to decibels (assuming reference value equal to 1):
`return 20.0 * std::log10(value);`. -/
def dB {α : Type} [Field α] (log10 : α → α) (value : α) : α :=
  20.0 * log10 value

/-- Convert the magnitude of a complex number to decibels:
`return dB(std::abs(value));`. The complex type `C` and its `std::abs` are
arguments. -/
def dB_complex {C α : Type} [Field α] (abs : C → α) (log10 : α → α) (value : C) : α :=
  dB log10 (abs value)

/-- Converts the value to decibels, relative to the reference value:
`return 20.0 * std::log10(value / refValue);`. -/
def dB_ref {α : Type} [Field α] (log10 : α → α) (value refValue : α) : α :=
  20.0 * log10 (value / refValue)

/-- Modelled from the spec: the coefficient of the Blackman window of length
`size` at index `i`, for `size > 1`. The definition of the constructor
`BlackmanWindow::BlackmanWindow(std::size_t)` is missing from the sources (only
its declaration in `BlackmanWindow.h` is present); the specification gives the
fill rule `0.42 − 0.5·cos(2πx) + 0.08·cos(4πx)` at the normalized position
`x = i / (N − 1)`. -/
def blackmanCoefficient {α : Type} [Field α] (cos : α → α) (pi : α) (size i : Nat) : α :=
  let x : α := (i : α) / ((size : α) - 1)
  0.42 - 0.5 * cos (2 * pi * x) + 0.08 * cos (4 * pi * x)

/-- Modelled from the spec: the sample sequence built by the constructor
`BlackmanWindow::BlackmanWindow(std::size_t size)`, whose definition is missing
from the sources. Following the specification, the sequence has exactly `size`
samples: it is empty for `size = 0`, it is the single sample `1.0` for
`size = 1` (the division by `size - 1` is special-cased), and for `size > 1`
the sample at index `i` is `blackmanCoefficient` at `i`. -/
def BlackmanWindow {α : Type} [Field α] (cos : α → α) (pi : α) (size : Nat) : List α :=
  if size = 1 then [1.0]
  else (List.range size).map (blackmanCoefficient cos pi size)

/-- The C++ remainder of a non-negative dividend by a nonzero divisor is
non-negative and smaller than the magnitude of the divisor. -/
theorem tmod_bounds (r d : Int) (hr : 0 ≤ r) (hd : d ≠ 0) :
    0 ≤ Int.tmod r d ∧ Int.tmod r d < |d| := by
  refine ⟨Int.tmod_nonneg d hr, ?_⟩
  rcases lt_or_gt_of_ne hd with h | h
  · rw [abs_of_neg h, ← Int.tmod_neg]
    exact Int.tmod_lt_of_pos r (by omega)
  · rw [abs_of_pos h]
    exact Int.tmod_lt_of_pos r h

/-- For distinct `int` values the wrapped difference is not zero. -/
theorem wrapInt_sub_ne_zero (a b : Int) (ha : INT_MIN ≤ a ∧ a ≤ INT_MAX)
    (hb : INT_MIN ≤ b ∧ b ≤ INT_MAX) (hne : a ≠ b) : wrapInt (a - b) ≠ 0 := by
  unfold INT_MAX INT_MIN at *
  unfold wrapInt
  omega

/-- The cosine vanishes at `3π/2`. -/
theorem cos_three_pi_div_two : Real.cos (3 * Real.pi / 2) = 0 := by
  have h : 3 * Real.pi / 2 = Real.pi / 2 + Real.pi := by ring
  rw [h, Real.cos_add_pi, Real.cos_pi_div_two, neg_zero]

/-- The cosine at `3π` is `-1`. -/
theorem cos_three_pi : Real.cos (3 * Real.pi) = -1 := by
  have h : 3 * Real.pi = Real.pi + 2 * Real.pi := by ring
  rw [h, Real.cos_add_two_pi, Real.cos_pi]

/-- The cosine at `4π` is `1`. -/
theorem cos_four_pi : Real.cos (4 * Real.pi) = 1 := by
  have h : 4 * Real.pi = 2 * Real.pi + 2 * Real.pi := by ring
  rw [h, Real.cos_add_two_pi, Real.cos_two_pi]

/-- The Blackman window of length 5 over the reals, sample by sample. -/
theorem BlackmanWindow_five : BlackmanWindow Real.cos Real.pi 5 = [0, 0.34, 1, 0.34, 0] := by
  have a1 : 2 * Real.pi * (((1 : Nat) : ℝ) / (((5 : Nat) : ℝ) - 1)) = Real.pi / 2 := by
    push_cast; ring
  have b1 : 4 * Real.pi * (((1 : Nat) : ℝ) / (((5 : Nat) : ℝ) - 1)) = Real.pi := by
    push_cast; ring
  have a2 : 2 * Real.pi * (((2 : Nat) : ℝ) / (((5 : Nat) : ℝ) - 1)) = Real.pi := by
    push_cast; ring
  have b2 : 4 * Real.pi * (((2 : Nat) : ℝ) / (((5 : Nat) : ℝ) - 1)) = 2 * Real.pi := by
    push_cast; ring
  have a3 : 2 * Real.pi * (((3 : Nat) : ℝ) / (((5 : Nat) : ℝ) - 1)) = 3 * Real.pi / 2 := by
    push_cast; ring
  have b3 : 4 * Real.pi * (((3 : Nat) : ℝ) / (((5 : Nat) : ℝ) - 1)) = 3 * Real.pi := by
    push_cast; ring
  have a4 : 2 * Real.pi * (((4 : Nat) : ℝ) / (((5 : Nat) : ℝ) - 1)) = 2 * Real.pi := by
    push_cast; ring
  have b4 : 4 * Real.pi * (((4 : Nat) : ℝ) / (((5 : Nat) : ℝ) - 1)) = 4 * Real.pi := by
    push_cast; ring
  have c0 : blackmanCoefficient Real.cos Real.pi 5 0 = 0 := by
    simp only [blackmanCoefficient, Nat.cast_zero, zero_div, mul_zero, Real.cos_zero]
    norm_num
  have c1 : blackmanCoefficient Real.cos Real.pi 5 1 = 0.34 := by
    simp only [blackmanCoefficient, a1, b1, Real.cos_pi_div_two, Real.cos_pi]
    norm_num
  have c2 : blackmanCoefficient Real.cos Real.pi 5 2 = 1 := by
    simp only [blackmanCoefficient, a2, b2, Real.cos_pi, Real.cos_two_pi]
    norm_num
  have c3 : blackmanCoefficient Real.cos Real.pi 5 3 = 0.34 := by
    simp only [blackmanCoefficient, a3, b3, cos_three_pi_div_two, cos_three_pi]
    norm_num
  have c4 : blackmanCoefficient Real.cos Real.pi 5 4 = 0 := by
    simp only [blackmanCoefficient, a4, b4, Real.cos_two_pi, cos_four_pi]
    norm_num
  have hr : List.range 5 = [0, 1, 2, 3, 4] := by decide
  unfold BlackmanWindow
  rw [if_neg (by decide), hr]
  simp only [List.map_cons, List.map_nil, c0, c1, c2, c3, c4]

/-- The Blackman window of length `size` has exactly `size` samples. -/
theorem BlackmanWindow_length {α : Type} [Field α] (cos : α → α) (pi : α) (size : Nat) :
    (BlackmanWindow cos pi size).length = size := by
  unfold BlackmanWindow
  by_cases h : size = 1
  · rw [if_pos h, h]; rfl
  · rw [if_neg h, List.length_map, List.length_range]

/-- For a length other than 1, the sample at an index `i < size` is the
coefficient of the fill rule at `i`. -/
theorem BlackmanWindow_getElem? {α : Type} [Field α] (cos : α → α) (pi : α) (size i : Nat)
    (h1 : size ≠ 1) (hi : i < size) :
    (BlackmanWindow cos pi size)[i]? = some (blackmanCoefficient cos pi size i) := by
  unfold BlackmanWindow
  rw [if_neg h1, List.getElem?_map, List.getElem?_range hi]
  rfl

/-- In terms of `c = cos(2πx)` the Blackman coefficient is `0.34 − 0.5·c + 0.16·c²`. -/
theorem blackmanCoefficient_eq_poly (size i : Nat) :
    blackmanCoefficient Real.cos Real.pi size i =
      0.34 - 0.5 * Real.cos (2 * Real.pi * ((i : ℝ) / ((size : ℝ) - 1)))
        + 0.16 * Real.cos (2 * Real.pi * ((i : ℝ) / ((size : ℝ) - 1))) ^ 2 := by
  have h4 : 4 * Real.pi * ((i : ℝ) / ((size : ℝ) - 1)) =
      2 * (2 * Real.pi * ((i : ℝ) / ((size : ℝ) - 1))) := by ring
  simp only [blackmanCoefficient]
  rw [h4, Real.cos_two_mul]
  norm_num
  ring

/-- The Blackman coefficient at the mirrored index `size - 1 - i` is the
coefficient at `i`. -/
theorem blackmanCoefficient_mirror (size i : Nat) (h2 : 2 ≤ size) (hi : i < size) :
    blackmanCoefficient Real.cos Real.pi size (size - 1 - i) =
      blackmanCoefficient Real.cos Real.pi size i := by
  have hne : ((size : ℝ) - 1) ≠ 0 := by
    have : (2 : ℝ) ≤ (size : ℝ) := by exact_mod_cast h2
    linarith
  have hcast : ((size - 1 - i : Nat) : ℝ) = ((size : ℝ) - 1) - (i : ℝ) := by
    have h1 : i ≤ size - 1 := by omega
    have h3 : 1 ≤ size := by omega
    rw [Nat.cast_sub h1, Nat.cast_sub h3, Nat.cast_one]
  have hx : ((size - 1 - i : Nat) : ℝ) / ((size : ℝ) - 1) = 1 - (i : ℝ) / ((size : ℝ) - 1) := by
    rw [hcast]
    field_simp
  rw [blackmanCoefficient_eq_poly, blackmanCoefficient_eq_poly, hx]
  have hc : Real.cos (2 * Real.pi * (1 - (i : ℝ) / ((size : ℝ) - 1))) =
      Real.cos (2 * Real.pi * ((i : ℝ) / ((size : ℝ) - 1))) := by
    have e : 2 * Real.pi * (1 - (i : ℝ) / ((size : ℝ) - 1)) =
        2 * Real.pi - 2 * Real.pi * ((i : ℝ) / ((size : ℝ) - 1)) := by ring
    rw [e, Real.cos_two_pi_sub]
  rw [hc]

/-- The C++ remainder of `r` by a divisor of larger magnitude is `r`, for
`r ≥ 0`. -/
theorem tmod_eq_self (r d : Int) (hr : 0 ≤ r) (hd : r < |d|) : Int.tmod r d = r := by
  rcases abs_cases d with ⟨h, _⟩ | ⟨h, _⟩
  · rw [h] at hd
    exact Int.tmod_eq_of_lt hr hd
  · rw [h] at hd
    rw [← Int.tmod_neg]
    exact Int.tmod_eq_of_lt hr hd

/-! ## Theorems -/

/-- C1: for `min ≤ max`, `clamp min value max` is `value` when
`min ≤ value ≤ max`, `min` when `value < min`, and `max` when `max < value`. -/
theorem clamp_cases {α : Type} [LinearOrder α] (min value max : α) (h : min ≤ max) :
    (min ≤ value ∧ value ≤ max → clamp min value max = value) ∧
    (value < min → clamp min value max = min) ∧
    (max < value → clamp min value max = max) := by
  unfold clamp stdMax stdMin
  refine ⟨?_, ?_, ?_⟩
  · rintro ⟨h1, h2⟩
    rw [if_neg (not_lt.mpr h2)]
    rcases lt_or_eq_of_le h1 with h3 | h3
    · rw [if_pos h3]
    · rw [if_neg (by rw [h3]; exact lt_irrefl _), h3]
  · intro h1
    rw [if_neg (not_lt.mpr (le_trans h1.le h)), if_neg (not_lt.mpr h1.le)]
  · intro h1
    rw [if_pos h1]
    rcases lt_or_eq_of_le h with h3 | h3
    · rw [if_pos h3]
    · rw [if_neg (by rw [h3]; exact lt_irrefl _), h3]

/-- The three examples of C1: `clamp(0, 5, 10) = 5`, `clamp(0, -5, 10) = 0`,
`clamp(0, 15, 10) = 10`, each obtained from `clamp_cases`. -/
theorem clamp_cases_witness :
    (0 : Int) ≤ 10 ∧ clamp (0 : Int) 5 10 = 5 ∧ clamp (0 : Int) (-5) 10 = 0 ∧
      clamp (0 : Int) 15 10 = 10 :=
  ⟨by decide,
   (clamp_cases (0 : Int) 5 10 (by decide)).1 ⟨by decide, by decide⟩,
   (clamp_cases (0 : Int) (-5) 10 (by decide)).2.1 (by decide),
   (clamp_cases (0 : Int) 15 10 (by decide)).2.2 (by decide)⟩

/-- C2: for `min ≤ max`, the result of `clamp` lies in the range:
`min ≤ clamp min value max ≤ max`. -/
theorem clamp_bounds {α : Type} [LinearOrder α] (min value max : α) (h : min ≤ max) :
    min ≤ clamp min value max ∧ clamp min value max ≤ max := by
  unfold clamp stdMax stdMin
  by_cases h1 : max < value
  · rw [if_pos h1]
    by_cases h2 : min < max
    · rw [if_pos h2]; exact ⟨h, le_refl _⟩
    · rw [if_neg h2]; exact ⟨le_refl _, h⟩
  · rw [if_neg h1]
    by_cases h2 : min < value
    · rw [if_pos h2]; exact ⟨h2.le, not_lt.mp h1⟩
    · rw [if_neg h2]; exact ⟨le_refl _, h⟩

/-- A concrete instance of C2: `0 ≤ clamp 0 15 10 ≤ 10`. -/
theorem clamp_bounds_witness :
    (0 : Int) ≤ 10 ∧ (0 : Int) ≤ clamp 0 15 10 ∧ clamp (0 : Int) 15 10 ≤ 10 :=
  ⟨by decide, clamp_bounds (0 : Int) 15 10 (by decide)⟩

/-- C3: for `int` bounds with `to > from` and every value `rand` that
`std::rand()` can return (`0 ≤ rand ≤ RAND_MAX`), `random(from, to)`, computed
as `rand % (to - from) + from` in 32-bit `int` arithmetic, returns a value `v`
with `from ≤ v < to`. -/
theorem random_in_range (RAND_MAX rand from_ to_ : Int)
    (hfrom : INT_MIN ≤ from_) (hto : to_ ≤ INT_MAX) (hlt : from_ < to_)
    (hr0 : 0 ≤ rand) (hr : rand ≤ RAND_MAX) (hR : RAND_MAX ≤ INT_MAX) :
    ∃ v, random rand from_ to_ = some v ∧ from_ ≤ v ∧ v < to_ := by
  have hd : wrapInt (to_ - from_) ≠ 0 := by
    unfold INT_MAX at hto
    unfold INT_MIN at hfrom
    unfold wrapInt
    omega
  obtain ⟨t0, t1⟩ := tmod_bounds rand (wrapInt (to_ - from_)) hr0 hd
  refine ⟨wrapInt (Int.tmod rand (wrapInt (to_ - from_)) + from_), ?_, ?_⟩
  · simp only [random, if_neg hd]
  · generalize Int.tmod rand (wrapInt (to_ - from_)) = t at *
    unfold INT_MAX at hto
    unfold INT_MIN at hfrom
    unfold wrapInt at *
    rcases abs_cases ((to_ - from_ + 2147483648) % 4294967296 - 2147483648) with
      ⟨h, _⟩ | ⟨h, _⟩ <;> omega

/-- An instance of C3 in which `to - from` overflows the `int`:
`random(INT_MIN, 1)` with `rand = 2147483646`, `RAND_MAX = INT_MAX`. -/
theorem random_in_range_witness :
    ∃ v, random 2147483646 (-2147483648) 1 = some v ∧ -2147483648 ≤ v ∧ v < 1 :=
  random_in_range 2147483647 2147483646 (-2147483648) 1
    (by decide) (by decide) (by decide) (by decide) (by decide) (by decide)

/-- C4, refuted as stated: `random(5, 3)` has `to ≤ from`, and with
`std::rand()` returning `1` it returns the value `6`; it does not fail. -/
theorem random_reversed_range_returns :
    (3 : Int) ≤ 5 ∧ random 1 5 3 = some 6 := by
  decide

/-- C4, amended: `random` does not validate its bounds. For `int` bounds with
`to < from` it returns a value, `rand % (to - from) + from` in 32-bit `int`
arithmetic; for `to = from` the divisor is zero and it yields no value. -/
theorem random_unchecked_bounds (rand from_ to_ : Int)
    (hfrom : INT_MIN ≤ from_ ∧ from_ ≤ INT_MAX) (hto : INT_MIN ≤ to_ ∧ to_ ≤ INT_MAX)
    (hle : to_ ≤ from_) :
    (to_ < from_ →
      random rand from_ to_ = some (wrapInt (Int.tmod rand (wrapInt (to_ - from_)) + from_))) ∧
    (to_ = from_ → random rand from_ to_ = none) := by
  refine ⟨fun h => ?_, fun h => ?_⟩
  · have hd : wrapInt (to_ - from_) ≠ 0 := wrapInt_sub_ne_zero to_ from_ hto hfrom (ne_of_lt h)
    simp only [random, if_neg hd]
  · subst h
    simp [random, wrapInt]

/-- An instance of the amended C4: `random(7, 2)` with `rand = 13` returns
`13 % (-5) + 7 = 10`, and `random(7, 7)` yields no value. -/
theorem random_unchecked_bounds_witness :
    random 13 7 2 = some 10 ∧ random 13 7 7 = none :=
  ⟨(random_unchecked_bounds 13 7 2 (by decide) (by decide) (by decide)).1 (by decide),
   (random_unchecked_bounds 13 7 7 (by decide) (by decide) (by decide)).2 rfl⟩

/-- C5: for every value `rand` that `std::rand()` can return
(`0 ≤ rand ≤ RAND_MAX`, `RAND_MAX > 0`), `randomDouble() = rand / RAND_MAX`
lies in the closed interval `[0, 1]`. -/
theorem randomDouble_mem_unit_interval {α : Type} [LinearOrderedField α]
    (rand RAND_MAX : Int) (hR : 0 < RAND_MAX) (h0 : 0 ≤ rand) (h1 : rand ≤ RAND_MAX) :
    (0 : α) ≤ randomDouble rand RAND_MAX ∧ (randomDouble rand RAND_MAX : α) ≤ 1 := by
  have hR' : (0 : α) < (RAND_MAX : α) := by exact_mod_cast hR
  have h0' : (0 : α) ≤ (rand : α) := by exact_mod_cast h0
  have h1' : (rand : α) ≤ (RAND_MAX : α) := by exact_mod_cast h1
  unfold randomDouble
  exact ⟨div_nonneg h0' hR'.le, (div_le_one hR').mpr h1'⟩

/-- An instance of C5 over the rationals, with `RAND_MAX = 32767`. -/
theorem randomDouble_mem_unit_interval_witness :
    (0 : ℚ) ≤ randomDouble 12345 32767 ∧ (randomDouble 12345 32767 : ℚ) ≤ 1 :=
  randomDouble_mem_unit_interval 12345 32767 (by decide) (by decide) (by decide)

/-- C6: for every real `value > 0`, the decibel conversion of a value relative
to itself is zero: `dB(value, value) = 0.0`. -/
theorem dB_ref_self (value : ℝ) (h : 0 < value) :
    dB_ref (Real.logb 10) value value = 0.0 := by
  unfold dB_ref
  rw [div_self (ne_of_gt h), Real.logb_one]
  norm_num

/-- An instance of C6: `dB(3, 3) = 0`. -/
theorem dB_ref_self_witness : dB_ref (Real.logb 10) (3 : ℝ) 3 = 0.0 :=
  dB_ref_self 3 (by norm_num)

/-- C7: for every real `value > 0`, `dB(value) = 20·log10(value)`, with
`log10 x = ln x / ln 10`; in particular `dB(1.0) = 0.0` and `dB(10.0) = 20.0`. -/
theorem dB_eq (value : ℝ) (h : 0 < value) :
    dB (Real.logb 10) value = 20 * (Real.log value / Real.log 10) ∧
    dB (Real.logb 10) (1.0 : ℝ) = 0.0 ∧
    dB (Real.logb 10) (10.0 : ℝ) = 20.0 := by
  refine ⟨?_, ?_, ?_⟩
  · unfold dB
    rw [Real.log_div_log]
    norm_num
  · unfold dB
    norm_num
  · unfold dB
    have h10 : (10.0 : ℝ) = 10 := by norm_num
    rw [h10, Real.logb_self_eq_one (by norm_num)]
    norm_num

/-- An instance of C7: `dB(100) = 20·(ln 100 / ln 10)`. -/
theorem dB_eq_witness :
    dB (Real.logb 10) (100 : ℝ) = 20 * (Real.log 100 / Real.log 10) :=
  (dB_eq 100 (by norm_num)).1

/-- C8: the one-argument `dB` is the two-argument `dB` with reference value 1:
for every real `value > 0`, `dB(value) = dB(value, 1)`. -/
theorem dB_eq_dB_ref_one (value : ℝ) (h : 0 < value) :
    dB (Real.logb 10) value = dB_ref (Real.logb 10) value 1 := by
  unfold dB dB_ref
  rw [div_one]

/-- An instance of C8: `dB(2) = dB(2, 1)`. -/
theorem dB_eq_dB_ref_one_witness :
    dB (Real.logb 10) (2 : ℝ) = dB_ref (Real.logb 10) 2 1 :=
  dB_eq_dB_ref_one 2 (by norm_num)

/-- C9: for every complex number `z = (re, im)`, `dB(z)` is `dB` of the
Euclidean norm of `z`, that is `20·log10(sqrt(re² + im²))`. -/
theorem dB_complex_eq (re im : ℝ) :
    dB_complex (fun z : ℂ => Complex.abs z) (Real.logb 10) ⟨re, im⟩ =
      dB (Real.logb 10) (Real.sqrt (re ^ 2 + im ^ 2)) ∧
    dB_complex (fun z : ℂ => Complex.abs z) (Real.logb 10) ⟨re, im⟩ =
      20 * Real.logb 10 (Real.sqrt (re ^ 2 + im ^ 2)) := by
  have habs : Complex.abs ⟨re, im⟩ = Real.sqrt (re ^ 2 + im ^ 2) := by
    rw [Complex.abs_apply, Complex.normSq_mk, sq, sq]
  unfold dB_complex dB
  simp only [habs]
  norm_num

/-- C10: for every `N > 1` the Blackman window of length `N` has exactly `N`
samples and the sample at every index `i ≤ N - 1` is
`0.42 − 0.5·cos(2πx) + 0.08·cos(4πx)` with `x = i / (N − 1)`; for `N = 5` the
samples are `[0, 0.34, 1, 0.34, 0]`. -/
theorem BlackmanWindow_samples (N : Nat) (hN : 1 < N) :
    (BlackmanWindow Real.cos Real.pi N).length = N ∧
    (∀ i : Nat, i < N →
      (BlackmanWindow Real.cos Real.pi N)[i]? =
        some (0.42 - 0.5 * Real.cos (2 * Real.pi * ((i : ℝ) / ((N : ℝ) - 1)))
          + 0.08 * Real.cos (4 * Real.pi * ((i : ℝ) / ((N : ℝ) - 1))))) ∧
    BlackmanWindow Real.cos Real.pi 5 = [0, 0.34, 1, 0.34, 0] := by
  have hne : N ≠ 1 := by omega
  refine ⟨?_, ?_, ?_⟩
  · simp [BlackmanWindow, hne]
  · intro i hi
    simp [BlackmanWindow, hne, blackmanCoefficient, List.getElem?_map, List.getElem?_range hi]
  · exact BlackmanWindow_five

/-- An instance of C10 at `N = 5`: five samples, and the sample at index 1 is
`0.42 − 0.5·cos(2π·(1/4)) + 0.08·cos(4π·(1/4))`. -/
theorem BlackmanWindow_samples_witness :
    1 < 5 ∧ (BlackmanWindow Real.cos Real.pi 5).length = 5 ∧
    (BlackmanWindow Real.cos Real.pi 5)[1]? =
      some (0.42 - 0.5 * Real.cos (2 * Real.pi * (((1 : Nat) : ℝ) / (((5 : Nat) : ℝ) - 1)))
        + 0.08 * Real.cos (4 * Real.pi * (((1 : Nat) : ℝ) / (((5 : Nat) : ℝ) - 1)))) :=
  ⟨by decide, (BlackmanWindow_samples 5 (by decide)).1,
   (BlackmanWindow_samples 5 (by decide)).2.1 1 (by decide)⟩

/-- C11: for every `N ≥ 2` and every index `i ≤ N - 1`, the Blackman window of
length `N` is symmetric: the samples at `i` and at `N - 1 - i` are equal. -/
theorem BlackmanWindow_symmetric (N i : Nat) (hN : 2 ≤ N) (hi : i < N) :
    ∃ a : ℝ, (BlackmanWindow Real.cos Real.pi N)[i]? = some a ∧
      (BlackmanWindow Real.cos Real.pi N)[N - 1 - i]? = some a := by
  have hne : N ≠ 1 := by omega
  refine ⟨blackmanCoefficient Real.cos Real.pi N i, ?_, ?_⟩
  · exact BlackmanWindow_getElem? Real.cos Real.pi N i hne hi
  · rw [BlackmanWindow_getElem? Real.cos Real.pi N (N - 1 - i) hne (by omega),
      blackmanCoefficient_mirror N i hN hi]

/-- An instance of C11: in the window of length 6 the samples at indices 1 and
4 are equal. -/
theorem BlackmanWindow_symmetric_witness :
    ∃ a : ℝ, (BlackmanWindow Real.cos Real.pi 6)[1]? = some a ∧
      (BlackmanWindow Real.cos Real.pi 6)[6 - 1 - 1]? = some a :=
  BlackmanWindow_symmetric 6 1 (by decide) (by decide)

/-- C12: for every `N ≥ 2` and every index `i ≤ N - 1`, the Blackman window
coefficient at index `i` lies in the closed interval `[0, 1]`. -/
theorem BlackmanWindow_mem_unit_interval (N i : Nat) (hN : 2 ≤ N) (hi : i < N) :
    ∃ a : ℝ, (BlackmanWindow Real.cos Real.pi N)[i]? = some a ∧ 0 ≤ a ∧ a ≤ 1 := by
  have hne : N ≠ 1 := by omega
  refine ⟨blackmanCoefficient Real.cos Real.pi N i,
    BlackmanWindow_getElem? Real.cos Real.pi N i hne hi, ?_, ?_⟩
  · rw [blackmanCoefficient_eq_poly]
    have h1 := Real.neg_one_le_cos (2 * Real.pi * ((i : ℝ) / ((N : ℝ) - 1)))
    have h2 := Real.cos_le_one (2 * Real.pi * ((i : ℝ) / ((N : ℝ) - 1)))
    generalize Real.cos (2 * Real.pi * ((i : ℝ) / ((N : ℝ) - 1))) = c at h1 h2
    norm_num
    nlinarith [mul_nonneg (sub_nonneg.mpr h2) (by linarith : (0 : ℝ) ≤ 0.34 - 0.16 * c)]
  · rw [blackmanCoefficient_eq_poly]
    have h1 := Real.neg_one_le_cos (2 * Real.pi * ((i : ℝ) / ((N : ℝ) - 1)))
    have h2 := Real.cos_le_one (2 * Real.pi * ((i : ℝ) / ((N : ℝ) - 1)))
    generalize Real.cos (2 * Real.pi * ((i : ℝ) / ((N : ℝ) - 1))) = c at h1 h2
    norm_num
    nlinarith [mul_nonneg (by linarith : (0 : ℝ) ≤ 1 + c) (by linarith : (0 : ℝ) ≤ 0.66 - 0.16 * c)]

/-- An instance of C12: the sample at index 2 of the window of length 7 lies in
`[0, 1]`. -/
theorem BlackmanWindow_mem_unit_interval_witness :
    ∃ a : ℝ, (BlackmanWindow Real.cos Real.pi 7)[2]? = some a ∧ 0 ≤ a ∧ a ≤ 1 :=
  BlackmanWindow_mem_unit_interval 7 2 (by decide) (by decide)

/-- C13: the Blackman window of length 1 has exactly one sample and that sample
is `1.0`, whatever the cosine function: the fill rule, which divides by
`N − 1 = 0`, is not evaluated. -/
theorem BlackmanWindow_one {α : Type} [Field α] (cos : α → α) (pi : α) :
    (BlackmanWindow cos pi 1).length = 1 ∧ BlackmanWindow cos pi 1 = [1] ∧
    (BlackmanWindow cos pi 1)[0]? = some 1 := by
  have h : BlackmanWindow cos pi 1 = [1] := by
    unfold BlackmanWindow
    rw [if_pos rfl]
    norm_num
  rw [h]
  exact ⟨rfl, rfl, rfl⟩

/-- C15: when `min > max`, `clamp min value max` is `min` for every `value`. -/
theorem clamp_of_max_lt_min {α : Type} [LinearOrder α] (min value max : α) (h : max < min) :
    clamp min value max = min := by
  unfold clamp stdMax stdMin
  by_cases h1 : max < value
  · rw [if_pos h1, if_neg (not_lt.mpr h.le)]
  · rw [if_neg h1, if_neg (not_lt.mpr (le_trans (not_lt.mp h1) h.le))]

/-- Instances of C15: `clamp(10, v, 0) = 10` for `v = -5, 5, 15`. -/
theorem clamp_of_max_lt_min_witness :
    clamp (10 : Int) (-5) 0 = 10 ∧ clamp (10 : Int) 5 0 = 10 ∧ clamp (10 : Int) 15 0 = 10 :=
  ⟨clamp_of_max_lt_min (10 : Int) (-5) 0 (by decide),
   clamp_of_max_lt_min (10 : Int) 5 0 (by decide),
   clamp_of_max_lt_min (10 : Int) 15 0 (by decide)⟩

/-- C16: `clamp` is idempotent in its value argument, with or without
`min ≤ max`: `clamp min (clamp min value max) max = clamp min value max`. -/
theorem clamp_idempotent {α : Type} [LinearOrder α] (min value max : α) :
    clamp min (clamp min value max) max = clamp min value max := by
  unfold clamp stdMax stdMin
  by_cases h1 : max < value
  · rw [if_pos h1]
    by_cases h2 : min < max
    · rw [if_pos h2, if_neg (lt_irrefl max), if_pos h2]
    · rw [if_neg h2]
      by_cases h3 : max < min
      · rw [if_pos h3, if_neg h2]
      · rw [if_neg h3, if_neg (lt_irrefl min)]
  · rw [if_neg h1]
    by_cases h2 : min < value
    · rw [if_pos h2, if_neg h1, if_pos h2]
    · rw [if_neg h2]
      by_cases h3 : max < min
      · rw [if_pos h3]
        by_cases h4 : min < max
        · exact absurd h4 (not_lt.mpr h3.le)
        · rw [if_neg h4]
      · rw [if_neg h3, if_neg (lt_irrefl min)]

/-- C17: for all real `value > 0` and `refValue > 0`,
`dB(value, refValue) = dB(value) − dB(refValue)`, and consequently
`dB(refValue, value) = −dB(value, refValue)`. -/
theorem dB_ref_eq_sub (value refValue : ℝ) (hv : 0 < value) (hr : 0 < refValue) :
    dB_ref (Real.logb 10) value refValue =
      dB (Real.logb 10) value - dB (Real.logb 10) refValue ∧
    dB_ref (Real.logb 10) refValue value = -dB_ref (Real.logb 10) value refValue := by
  unfold dB_ref dB
  rw [Real.logb_div (ne_of_gt hv) (ne_of_gt hr), Real.logb_div (ne_of_gt hr) (ne_of_gt hv)]
  constructor <;> ring

/-- An instance of C17: `dB(8, 2) = dB(8) − dB(2)` and `dB(2, 8) = −dB(8, 2)`. -/
theorem dB_ref_eq_sub_witness :
    dB_ref (Real.logb 10) (8 : ℝ) 2 = dB (Real.logb 10) 8 - dB (Real.logb 10) 2 ∧
    dB_ref (Real.logb 10) (2 : ℝ) 8 = -dB_ref (Real.logb 10) 8 2 :=
  dB_ref_eq_sub 8 2 (by norm_num) (by norm_num)

/-- C18: `random(from, to)` cannot reach the whole range when it is wider than
the generator. For `int` bounds with `to − from > RAND_MAX + 1` and no overflow
in `to − from`, every `rand` in `[0, RAND_MAX]` gives the result `rand + from`,
so no value `v` with `from + RAND_MAX < v < to` is returned; whereas for
`0 < to − from ≤ RAND_MAX + 1` every value of `[from, to)` is returned for some
`rand` in `[0, RAND_MAX]`. -/
theorem random_coverage (RAND_MAX from_ to_ : Int)
    (hR0 : 0 ≤ RAND_MAX) (hR : RAND_MAX ≤ INT_MAX)
    (hfrom : INT_MIN ≤ from_) (hto : to_ ≤ INT_MAX) :
    (RAND_MAX + 1 < to_ - from_ → to_ - from_ ≤ INT_MAX →
      (∀ rand : Int, 0 ≤ rand → rand ≤ RAND_MAX →
        random rand from_ to_ = some (rand + from_)) ∧
      (∀ v : Int, from_ + RAND_MAX < v → v < to_ →
        ∀ rand : Int, 0 ≤ rand → rand ≤ RAND_MAX → random rand from_ to_ ≠ some v)) ∧
    (0 < to_ - from_ → to_ - from_ ≤ RAND_MAX + 1 →
      ∀ v : Int, from_ ≤ v → v < to_ →
        ∃ rand : Int, 0 ≤ rand ∧ rand ≤ RAND_MAX ∧ random rand from_ to_ = some v) := by
  unfold INT_MAX at hR hto
  unfold INT_MIN at hfrom
  constructor
  · intro hwide hno
    unfold INT_MAX at hno
    have hw : wrapInt (to_ - from_) = to_ - from_ := by unfold wrapInt; omega
    have hd : to_ - from_ ≠ 0 := by omega
    have hval : ∀ rand : Int, 0 ≤ rand → rand ≤ RAND_MAX →
        random rand from_ to_ = some (rand + from_) := by
      intro rand h0 h1
      have ht : Int.tmod rand (to_ - from_) = rand := Int.tmod_eq_of_lt h0 (by omega)
      have hs : wrapInt (rand + from_) = rand + from_ := by unfold wrapInt; omega
      simp only [random, hw, if_neg hd, ht, hs]
    refine ⟨hval, ?_⟩
    intro v hv1 _ rand h0 h1 heq
    rw [hval rand h0 h1] at heq
    have : rand + from_ = v := Option.some.inj heq
    omega
  · intro hpos hfit v hv1 hv2
    refine ⟨v - from_, by omega, by omega, ?_⟩
    have hd : wrapInt (to_ - from_) ≠ 0 := by unfold wrapInt; omega
    have ht : Int.tmod (v - from_) (wrapInt (to_ - from_)) = v - from_ := by
      apply tmod_eq_self (v - from_) (wrapInt (to_ - from_)) (by omega)
      unfold wrapInt
      rcases abs_cases ((to_ - from_ + 2147483648) % 4294967296 - 2147483648) with
        ⟨h, _⟩ | ⟨h, _⟩ <;> omega
    have hs : wrapInt (v - from_ + from_) = v := by unfold wrapInt; omega
    simp only [random, if_neg hd, ht, hs]

/-- An instance of C18 with `RAND_MAX = 32767`: in `random(0, 100000)` the value
`rand = 32767` gives `32767` and the value `50000` is never returned, while in
`random(-3, 5)` the value `4` is returned for some `rand`. -/
theorem random_coverage_witness :
    random 32767 0 100000 = some (32767 + 0) ∧
    (∀ rand : Int, 0 ≤ rand → rand ≤ 32767 → random rand 0 100000 ≠ some 50000) ∧
    (∃ rand : Int, 0 ≤ rand ∧ rand ≤ 32767 ∧ random rand (-3) 5 = some 4) :=
  ⟨((random_coverage 32767 0 100000 (by decide) (by decide) (by decide) (by decide)).1
      (by decide) (by decide)).1 32767 (by decide) (by decide),
   ((random_coverage 32767 0 100000 (by decide) (by decide) (by decide) (by decide)).1
      (by decide) (by decide)).2 50000 (by decide) (by decide),
   (random_coverage 32767 (-3) 5 (by decide) (by decide) (by decide) (by decide)).2
      (by decide) (by decide) 4 (by decide) (by decide)⟩

end Aquila
